import Mathlib

/-!
# Verification of the CHIP-8 interpreter core (drabard/chip8emu)

Shallow embedding of the fetch-decode-execute engine from `src/interpreter.rs`,
the duplicated decoder from `src/main.rs`, and the key-state queries from
`src/input.rs`.  Machine bytes, 16-bit words and the usize stack pointer are
modelled as `Nat` with explicit reduction modulo the machine width where the
source wraps; fallible operations (array indexing, slicing, enum conversions
that panic in Rust) return `Option`, with `none` standing for a panic.
-/

set_option maxRecDepth 200000

/-- Key states from `input.rs` (`KeyUp = 0b01`, `KeyPressed = 0b10`, `KeyDown = 0b11`). -/
inductive KeyState where
  | KeyUp
  | KeyPressed
  | KeyDown
  deriving DecidableEq, BEq, Repr

/-- The engine-visible part of `input.rs::Input`: the 16-entry logical key array. -/
structure Input where
  chip8_keys : List KeyState
  deriving DecidableEq, Repr

/-- `Key::from(u8)` from `input.rs`: identity on 0..=15, panics (`none`) otherwise. -/
def keyFrom (v : Nat) : Option Nat :=
  if v < 16 then some v else none

/-- `Input::any_key_pressed`: index of the first key in the `KeyPressed` state. -/
def Input.any_key_pressed (inp : Input) : Option Nat :=
  inp.chip8_keys.findIdx? (fun k => k == KeyState.KeyPressed)

/-- `Input::get_key_state`: indexes the key array (total in Rust since `Key` is 0..=15). -/
def Input.get_key_state (inp : Input) (k : Nat) : Option KeyState :=
  inp.chip8_keys[k]?

/-- `interpreter.rs::ExecutionStatus`. -/
inductive ExecutionStatus where
  | Ok
  | FramebufferChanged
  deriving DecidableEq, Repr

/-- The decoded instruction set of `interpreter.rs` (identical in `main.rs`). -/
inductive Instruction where
  | INVALID
  | SYS
  | CLS
  | RET
  | JP (address : Nat)
  | CALL (address : Nat)
  | SERV (r : Nat) (v : Nat)
  | SNERV (r : Nat) (v : Nat)
  | SERR (r0 : Nat) (r1 : Nat)
  | LDRV (r : Nat) (v : Nat)
  | ADDRV (r : Nat) (v : Nat)
  | LDRR (r0 : Nat) (r1 : Nat)
  | ORRR (r0 : Nat) (r1 : Nat)
  | ANDRR (r0 : Nat) (r1 : Nat)
  | XORRR (r0 : Nat) (r1 : Nat)
  | ADDRR (r0 : Nat) (r1 : Nat)
  | SUBRR (r0 : Nat) (r1 : Nat)
  | SHR (r0 : Nat) (r1 : Nat)
  | SUBN (r0 : Nat) (r1 : Nat)
  | SHL (r0 : Nat) (r1 : Nat)
  | SNERR (r0 : Nat) (r1 : Nat)
  | LDI (address : Nat)
  | JP0A (address : Nat)
  | RND (r : Nat) (v : Nat)
  | DRW (r0 : Nat) (r1 : Nat) (n : Nat)
  | SKP (r : Nat)
  | SKNP (r : Nat)
  | LDRDT (r : Nat)
  | LDRK (r : Nat)
  | LDDTR (r : Nat)
  | LDSTR (r : Nat)
  | ADDI (r : Nat)
  | LDF (r : Nat)
  | LDB (r : Nat)
  | LDIR (r : Nat)
  | LDRI (r : Nat)
  deriving DecidableEq, Repr

/-- Machine state of `interpreter.rs::Interpreter` (without the RNG, which is
passed to each step as the byte it would draw). -/
structure Interpreter where
  framebuffer : List Nat
  memory : List Nat
  registers : List Nat
  stack : List Nat
  memory_register : Nat
  delay_timer : Nat
  sound_timer : Nat
  program_counter : Nat
  stack_pointer : Nat
  previous_status : ExecutionStatus
  deriving DecidableEq, Repr

/-- Sizes and value bounds fixed by the field types of `Interpreter` in Rust. -/
def Interpreter.Wf (s : Interpreter) : Prop :=
  s.framebuffer.length = 256 ∧ s.memory.length = 4095 ∧
  s.registers.length = 16 ∧ s.stack.length = 15 ∧
  s.program_counter < 65536 ∧ s.memory_register < 65536 ∧
  s.stack_pointer < 2 ^ 64

instance (s : Interpreter) : Decidable s.Wf := by
  unfold Interpreter.Wf; infer_instance

/-- Modelled from the spec: the crate's build profile (Cargo.toml, not under src/)
decides whether plain integer `+=`/`-=`/`*` overflow panics (dev) or wraps
(release).  Spec section 7 fixes wrapping 8/16-bit arithmetic as "intentional,
spec-defined behavior, not an error", and section 3 describes stack-pointer
underflow as silent, so unchecked arithmetic here wraps modulo the machine
width, as in a release build; the source's explicit `wrapping_add`/`wrapping_sub`
wrap identically in every profile. -/
def wrap (width n : Nat) : Nat := n % width

/-- Two's-complement wrapping subtraction at a given width (operands < width). -/
def wsub (width a b : Nat) : Nat := (a + width - b) % width

/-- The usize modulus. -/
def USIZE : Nat := 2 ^ 64

/-- Bounds-checked array store: `none` models the Rust indexing panic. -/
def writeArr (l : List Nat) (i v : Nat) : Option (List Nat) :=
  if i < l.length then some (l.set i v) else none

/-- `Interpreter::decode_opcode` from `interpreter.rs`: total, every unrecognized
pattern maps to `INVALID`. -/
def Interpreter.decode_opcode (opcode : Nat) : Instruction :=
  match (opcode &&& 0xf000) >>> 12 with
  | 0 =>
    match opcode &&& 0xfff with
    | 0x0E0 => Instruction.CLS
    | 0x0EE => Instruction.RET
    | _ => Instruction.SYS
  | 1 => Instruction.JP (opcode &&& 0xfff)
  | 2 => Instruction.CALL (opcode &&& 0xfff)
  | 3 => Instruction.SERV ((opcode &&& 0xf00) >>> 8) (opcode &&& 0xff)
  | 4 => Instruction.SNERV ((opcode &&& 0xf00) >>> 8) (opcode &&& 0xff)
  | 5 => Instruction.SERR ((opcode &&& 0xf00) >>> 8) ((opcode &&& 0xf0) >>> 4)
  | 6 => Instruction.LDRV ((opcode &&& 0xf00) >>> 8) (opcode &&& 0xff)
  | 7 => Instruction.ADDRV ((opcode &&& 0xf00) >>> 8) (opcode &&& 0xff)
  | 8 =>
    match opcode &&& 0xf with
    | 0 => Instruction.LDRR ((opcode &&& 0xf00) >>> 8) ((opcode &&& 0xf0) >>> 4)
    | 1 => Instruction.ORRR ((opcode &&& 0xf00) >>> 8) ((opcode &&& 0xf0) >>> 4)
    | 2 => Instruction.ANDRR ((opcode &&& 0xf00) >>> 8) ((opcode &&& 0xf0) >>> 4)
    | 3 => Instruction.XORRR ((opcode &&& 0xf00) >>> 8) ((opcode &&& 0xf0) >>> 4)
    | 4 => Instruction.ADDRR ((opcode &&& 0xf00) >>> 8) ((opcode &&& 0xf0) >>> 4)
    | 5 => Instruction.SUBRR ((opcode &&& 0xf00) >>> 8) ((opcode &&& 0xf0) >>> 4)
    | 6 => Instruction.SHR ((opcode &&& 0xf00) >>> 8) ((opcode &&& 0xf0) >>> 4)
    | 7 => Instruction.SUBN ((opcode &&& 0xf00) >>> 8) ((opcode &&& 0xf0) >>> 4)
    | 0xe => Instruction.SHL ((opcode &&& 0xf00) >>> 8) ((opcode &&& 0xf0) >>> 4)
    | _ => Instruction.INVALID
  | 9 => Instruction.SNERR ((opcode &&& 0xf00) >>> 8) ((opcode &&& 0xf0) >>> 4)
  | 0xa => Instruction.LDI (opcode &&& 0xfff)
  | 0xb => Instruction.JP0A (opcode &&& 0xfff)
  | 0xc => Instruction.RND ((opcode &&& 0xf00) >>> 8) (opcode &&& 0xff)
  | 0xd =>
    Instruction.DRW ((opcode &&& 0xf00) >>> 8) ((opcode &&& 0xf0) >>> 4) (opcode &&& 0xf)
  | 0xe =>
    match opcode &&& 0xff with
    | 0x9E => Instruction.SKP ((opcode &&& 0xf00) >>> 8)
    | 0xA1 => Instruction.SKNP ((opcode &&& 0xf00) >>> 8)
    | _ => Instruction.INVALID
  | 0xf =>
    match opcode &&& 0xff with
    | 0x07 => Instruction.LDRDT ((opcode &&& 0xf00) >>> 8)
    | 0x0A => Instruction.LDRK ((opcode &&& 0xf00) >>> 8)
    | 0x15 => Instruction.LDDTR ((opcode &&& 0xf00) >>> 8)
    | 0x18 => Instruction.LDSTR ((opcode &&& 0xf00) >>> 8)
    | 0x1E => Instruction.ADDI ((opcode &&& 0xf00) >>> 8)
    | 0x29 => Instruction.LDF ((opcode &&& 0xf00) >>> 8)
    | 0x33 => Instruction.LDB ((opcode &&& 0xf00) >>> 8)
    | 0x55 => Instruction.LDIR ((opcode &&& 0xf00) >>> 8)
    | 0x65 => Instruction.LDRI ((opcode &&& 0xf00) >>> 8)
    | _ => Instruction.INVALID
  | _ => Instruction.INVALID

/-- The duplicated `decode_opcode` from `main.rs`.  Identical to the interpreter
variant except in family `0xF`, where an unrecognized low byte executes
`panic!("Invalid opcode: ...")`, modelled as `none`. -/
def decode_opcode_main (opcode : Nat) : Option Instruction :=
  match (opcode &&& 0xf000) >>> 12 with
  | 0 =>
    match opcode &&& 0xfff with
    | 0x0E0 => some Instruction.CLS
    | 0x0EE => some Instruction.RET
    | _ => some Instruction.SYS
  | 1 => some (Instruction.JP (opcode &&& 0xfff))
  | 2 => some (Instruction.CALL (opcode &&& 0xfff))
  | 3 => some (Instruction.SERV ((opcode &&& 0xf00) >>> 8) (opcode &&& 0xff))
  | 4 => some (Instruction.SNERV ((opcode &&& 0xf00) >>> 8) (opcode &&& 0xff))
  | 5 => some (Instruction.SERR ((opcode &&& 0xf00) >>> 8) ((opcode &&& 0xf0) >>> 4))
  | 6 => some (Instruction.LDRV ((opcode &&& 0xf00) >>> 8) (opcode &&& 0xff))
  | 7 => some (Instruction.ADDRV ((opcode &&& 0xf00) >>> 8) (opcode &&& 0xff))
  | 8 =>
    match opcode &&& 0xf with
    | 0 => some (Instruction.LDRR ((opcode &&& 0xf00) >>> 8) ((opcode &&& 0xf0) >>> 4))
    | 1 => some (Instruction.ORRR ((opcode &&& 0xf00) >>> 8) ((opcode &&& 0xf0) >>> 4))
    | 2 => some (Instruction.ANDRR ((opcode &&& 0xf00) >>> 8) ((opcode &&& 0xf0) >>> 4))
    | 3 => some (Instruction.XORRR ((opcode &&& 0xf00) >>> 8) ((opcode &&& 0xf0) >>> 4))
    | 4 => some (Instruction.ADDRR ((opcode &&& 0xf00) >>> 8) ((opcode &&& 0xf0) >>> 4))
    | 5 => some (Instruction.SUBRR ((opcode &&& 0xf00) >>> 8) ((opcode &&& 0xf0) >>> 4))
    | 6 => some (Instruction.SHR ((opcode &&& 0xf00) >>> 8) ((opcode &&& 0xf0) >>> 4))
    | 7 => some (Instruction.SUBN ((opcode &&& 0xf00) >>> 8) ((opcode &&& 0xf0) >>> 4))
    | 0xe => some (Instruction.SHL ((opcode &&& 0xf00) >>> 8) ((opcode &&& 0xf0) >>> 4))
    | _ => some Instruction.INVALID
  | 9 => some (Instruction.SNERR ((opcode &&& 0xf00) >>> 8) ((opcode &&& 0xf0) >>> 4))
  | 0xa => some (Instruction.LDI (opcode &&& 0xfff))
  | 0xb => some (Instruction.JP0A (opcode &&& 0xfff))
  | 0xc => some (Instruction.RND ((opcode &&& 0xf00) >>> 8) (opcode &&& 0xff))
  | 0xd =>
    some (Instruction.DRW ((opcode &&& 0xf00) >>> 8) ((opcode &&& 0xf0) >>> 4) (opcode &&& 0xf))
  | 0xe =>
    match opcode &&& 0xff with
    | 0x9E => some (Instruction.SKP ((opcode &&& 0xf00) >>> 8))
    | 0xA1 => some (Instruction.SKNP ((opcode &&& 0xf00) >>> 8))
    | _ => some Instruction.INVALID
  | 0xf =>
    match opcode &&& 0xff with
    | 0x07 => some (Instruction.LDRDT ((opcode &&& 0xf00) >>> 8))
    | 0x0A => some (Instruction.LDRK ((opcode &&& 0xf00) >>> 8))
    | 0x15 => some (Instruction.LDDTR ((opcode &&& 0xf00) >>> 8))
    | 0x18 => some (Instruction.LDSTR ((opcode &&& 0xf00) >>> 8))
    | 0x1E => some (Instruction.ADDI ((opcode &&& 0xf00) >>> 8))
    | 0x29 => some (Instruction.LDF ((opcode &&& 0xf00) >>> 8))
    | 0x33 => some (Instruction.LDB ((opcode &&& 0xf00) >>> 8))
    | 0x55 => some (Instruction.LDIR ((opcode &&& 0xf00) >>> 8))
    | 0x65 => some (Instruction.LDRI ((opcode &&& 0xf00) >>> 8))
    | _ => none
  | _ => some Instruction.INVALID

/-- One row of the `DRW` loop body (`interpreter.rs` lines 340-354): the sprite
byte is fetched at the index register plus the row number, shifted into position
by `screen_x % 8`, and XORed into the framebuffer byte
`(screen_x / 8 + screen_y * 8) % 256` and its successor (wrapping to byte 0 from
the last byte). -/
def drawRow (mem : List Nat) (memReg x y row : Nat) (fb : List Nat) :
    Option (List Nat) := do
  let screen_y := (y + row) % 256
  let bit_offset := x % 8
  let sprite_byte ← mem[(memReg + row) % 65536]?
  let sprite_bits := ((sprite_byte % 65536) <<< (8 - bit_offset)) % 65536
  let fb_byte_idx := (x / 8 + screen_y * 8) % 256
  let b0 ← fb[fb_byte_idx]?
  let fb1 := fb.set fb_byte_idx (b0 ^^^ ((sprite_bits >>> 8) % 256))
  if fb_byte_idx = fb1.length - 1 then do
    let b1 ← fb1[0]?
    some (fb1.set 0 (b1 ^^^ (sprite_bits % 256)))
  else do
    let b1 ← fb1[fb_byte_idx + 1]?
    some (fb1.set (fb_byte_idx + 1) (b1 ^^^ (sprite_bits % 256)))

/-- The `for row in 0..nibble` loop of `DRW`, with `k` rows left starting at `row`. -/
def drawRowsAux (mem : List Nat) (memReg x y : Nat) :
    Nat → Nat → List Nat → Option (List Nat)
  | 0, _, fb => some fb
  | k + 1, row, fb => do
    let fb1 ← drawRow mem memReg x y row fb
    drawRowsAux mem memReg x y k (row + 1) fb1

/-- The complete `DRW` framebuffer update for `n` sprite rows. -/
def drawRows (mem : List Nat) (memReg x y n : Nat) (fb : List Nat) : Option (List Nat) :=
  drawRowsAux mem memReg x y n 0 fb

/-- `Interpreter::execute_instruction` from `interpreter.rs` lines 231-414.
The program counter is pre-incremented by 2, then instruction-specific effects
are applied.  `rnd` is the byte the RND instruction draws from the RNG.
`none` models a Rust panic (out-of-bounds indexing or slicing, or
`Key::from` on a value above 15).  The BCD digits of `LDB` are written with
integer division, which agrees exactly with the source's f32 floor divisions on
every u8 input. -/
def Interpreter.execute_instruction (s : Interpreter) (instr : Instruction)
    (inp : Input) (rnd : Nat) : Option (Interpreter × ExecutionStatus) :=
  let s := { s with program_counter := wrap 65536 (s.program_counter + 2) }
  match instr with
  | Instruction.INVALID => some (s, ExecutionStatus.Ok)
  | Instruction.SYS => some (s, ExecutionStatus.Ok)
  | Instruction.CLS =>
    some ({ s with framebuffer := List.replicate 256 0 }, ExecutionStatus.Ok)
  | Instruction.RET => do
    let ret ← s.stack[s.stack_pointer]?
    some ({ s with program_counter := ret,
                   stack_pointer := wsub USIZE s.stack_pointer 1 }, ExecutionStatus.Ok)
  | Instruction.JP a => some ({ s with program_counter := a }, ExecutionStatus.Ok)
  | Instruction.CALL a => do
    let sp := wrap USIZE (s.stack_pointer + 1)
    let st ← writeArr s.stack sp s.program_counter
    some ({ s with stack_pointer := sp, stack := st, program_counter := a },
          ExecutionStatus.Ok)
  | Instruction.SERV r v => do
    let b ← s.registers[r]?
    let s := if b = v then { s with program_counter := wrap 65536 (s.program_counter + 2) }
             else s
    some (s, ExecutionStatus.Ok)
  | Instruction.SNERV r v => do
    let b ← s.registers[r]?
    let s := if b ≠ v then { s with program_counter := wrap 65536 (s.program_counter + 2) }
             else s
    some (s, ExecutionStatus.Ok)
  | Instruction.SERR r0 r1 => do
    let a ← s.registers[r0]?
    let b ← s.registers[r1]?
    let s := if a = b then { s with program_counter := wrap 65536 (s.program_counter + 2) }
             else s
    some (s, ExecutionStatus.Ok)
  | Instruction.LDRV r v => do
    let regs ← writeArr s.registers r v
    some ({ s with registers := regs }, ExecutionStatus.Ok)
  | Instruction.ADDRV r v => do
    let pre ← s.registers[r]?
    let sum := pre + v
    let regs1 ← writeArr s.registers 15 (if sum > 255 then 1 else 0)
    let cur ← regs1[r]?
    let regs2 ← writeArr regs1 r (wrap 256 (cur + v))
    some ({ s with registers := regs2 }, ExecutionStatus.Ok)
  | Instruction.LDRR r0 r1 => do
    let b ← s.registers[r1]?
    let regs ← writeArr s.registers r0 b
    some ({ s with registers := regs }, ExecutionStatus.Ok)
  | Instruction.ORRR r0 r1 => do
    let a ← s.registers[r0]?
    let b ← s.registers[r1]?
    let regs ← writeArr s.registers r0 (a ||| b)
    some ({ s with registers := regs }, ExecutionStatus.Ok)
  | Instruction.ANDRR r0 r1 => do
    let a ← s.registers[r0]?
    let b ← s.registers[r1]?
    let regs ← writeArr s.registers r0 (a &&& b)
    some ({ s with registers := regs }, ExecutionStatus.Ok)
  | Instruction.XORRR r0 r1 => do
    let a ← s.registers[r0]?
    let b ← s.registers[r1]?
    let regs ← writeArr s.registers r0 (a ^^^ b)
    some ({ s with registers := regs }, ExecutionStatus.Ok)
  | Instruction.ADDRR r0 r1 => do
    let a ← s.registers[r1]?
    let b ← s.registers[r0]?
    let sum := a + b
    let regs1 ← writeArr s.registers 15 (if sum > 255 then 1 else 0)
    let x ← regs1[r0]?
    let y ← regs1[r1]?
    let regs2 ← writeArr regs1 r0 (wrap 256 (x + y))
    some ({ s with registers := regs2 }, ExecutionStatus.Ok)
  | Instruction.SUBRR r0 r1 => do
    let a ← s.registers[r0]?
    let b ← s.registers[r1]?
    let regs1 ← writeArr s.registers 15 (if (a : Int) - (b : Int) > 0 then 1 else 0)
    let x ← regs1[r0]?
    let y ← regs1[r1]?
    let regs2 ← writeArr regs1 r0 (wsub 256 x y)
    some ({ s with registers := regs2 }, ExecutionStatus.Ok)
  | Instruction.SHR r0 _ => do
    let a ← s.registers[r0]?
    let regs1 ← writeArr s.registers 15 (if a &&& 1 = 1 then 1 else 0)
    let x ← regs1[r0]?
    let regs2 ← writeArr regs1 r0 (x >>> 1)
    some ({ s with registers := regs2 }, ExecutionStatus.Ok)
  | Instruction.SUBN r0 r1 => do
    let a ← s.registers[r1]?
    let b ← s.registers[r0]?
    let regs1 ← writeArr s.registers 15 (if (a : Int) - (b : Int) > 0 then 1 else 0)
    let x ← regs1[r1]?
    let y ← regs1[r0]?
    let regs2 ← writeArr regs1 r0 (wsub 256 x y)
    some ({ s with registers := regs2 }, ExecutionStatus.Ok)
  | Instruction.SHL r0 _ => do
    let a ← s.registers[r0]?
    let regs1 ← writeArr s.registers 15 (if a &&& 0x80 = 0x80 then 1 else 0)
    let x ← regs1[r0]?
    let regs2 ← writeArr regs1 r0 (wrap 256 (x <<< 1))
    some ({ s with registers := regs2 }, ExecutionStatus.Ok)
  | Instruction.SNERR r0 r1 => do
    let a ← s.registers[r0]?
    let b ← s.registers[r1]?
    let s := if a ≠ b then { s with program_counter := wrap 65536 (s.program_counter + 2) }
             else s
    some (s, ExecutionStatus.Ok)
  | Instruction.LDI a => some ({ s with memory_register := a }, ExecutionStatus.Ok)
  | Instruction.JP0A a => do
    let r0 ← s.registers[0]?
    some ({ s with program_counter := wrap 65536 (a + r0) }, ExecutionStatus.Ok)
  | Instruction.RND r v => do
    let regs ← writeArr s.registers r ((rnd % 256) &&& v)
    some ({ s with registers := regs }, ExecutionStatus.Ok)
  | Instruction.DRW r0 r1 n => do
    let x ← s.registers[r0]?
    let y ← s.registers[r1]?
    let fb ← drawRows s.memory s.memory_register x y n s.framebuffer
    some ({ s with framebuffer := fb }, ExecutionStatus.FramebufferChanged)
  | Instruction.SKP r => do
    let b ← s.registers[r]?
    let k ← keyFrom b
    let st ← inp.get_key_state k
    let s := if st ≠ KeyState.KeyUp then
               { s with program_counter := wrap 65536 (s.program_counter + 2) }
             else s
    some (s, ExecutionStatus.Ok)
  | Instruction.SKNP r => do
    let b ← s.registers[r]?
    let k ← keyFrom b
    let st ← inp.get_key_state k
    let s := if st = KeyState.KeyUp then
               { s with program_counter := wrap 65536 (s.program_counter + 2) }
             else s
    some (s, ExecutionStatus.Ok)
  | Instruction.LDRDT r => do
    let regs ← writeArr s.registers r s.delay_timer
    some ({ s with registers := regs }, ExecutionStatus.Ok)
  | Instruction.LDRK r =>
    match inp.any_key_pressed with
    | some idx => do
      let k ← keyFrom (idx % 256)
      let regs ← writeArr s.registers r k
      some ({ s with registers := regs }, ExecutionStatus.Ok)
    | none =>
      some ({ s with program_counter := wsub 65536 s.program_counter 2 },
            ExecutionStatus.Ok)
  | Instruction.LDDTR r => do
    let b ← s.registers[r]?
    some ({ s with delay_timer := b }, ExecutionStatus.Ok)
  | Instruction.LDSTR r => do
    let b ← s.registers[r]?
    some ({ s with sound_timer := b }, ExecutionStatus.Ok)
  | Instruction.ADDI r => do
    let b ← s.registers[r]?
    some ({ s with memory_register := wrap 65536 (s.memory_register + b) },
          ExecutionStatus.Ok)
  | Instruction.LDF r => do
    let b ← s.registers[r]?
    some ({ s with memory_register := wrap 256 (b * 5) }, ExecutionStatus.Ok)
  | Instruction.LDB r => do
    let v ← s.registers[r]?
    let m1 ← writeArr s.memory s.memory_register (v / 100)
    let m2 ← writeArr m1 (s.memory_register + 1) (v % 100 / 10)
    let m3 ← writeArr m2 (s.memory_register + 2) (v % 10)
    some ({ s with memory := m3 }, ExecutionStatus.Ok)
  | Instruction.LDIR r =>
    let n := r + 1
    let ms := s.memory_register
    if ms + n ≤ s.memory.length then
      if n ≤ s.registers.length then
        some ({ s with
                  memory := s.memory.take ms ++ s.registers.take n
                              ++ s.memory.drop (ms + n) }, ExecutionStatus.Ok)
      else none
    else none
  | Instruction.LDRI r =>
    let n := r + 1
    let ms := s.memory_register
    if ms + n ≤ s.memory.length then
      if n ≤ s.registers.length then
        some ({ s with registers := (s.memory.drop ms).take n ++ s.registers.drop n },
              ExecutionStatus.Ok)
      else none
    else none

/-- The timer phase of `execute_next_instruction` (lines 422-431): each non-zero
8-bit countdown timer is decremented by one before the instruction runs. -/
def timerStep (s : Interpreter) : Interpreter :=
  let d := if s.delay_timer > 0 then s.delay_timer - 1 else s.delay_timer
  let st := if s.sound_timer = 0 then s.sound_timer else s.sound_timer - 1
  { s with delay_timer := d, sound_timer := st }

/-- Outcome of one tick: `ok` wraps the execution status, `err` the fatal
decode failure reported to the caller. -/
inductive TickResult where
  | ok (st : ExecutionStatus)
  | err (msg : String)
  deriving DecidableEq, Repr

/-- The fetch-decode-execute phase of a tick, running on the timer-stepped state. -/
def tickFetchExec (s1 : Interpreter) (inp : Input) (rnd : Nat) :
    Option (Interpreter × TickResult) := do
  let hi ← s1.memory[s1.program_counter]?
  let lo ← s1.memory[s1.program_counter + 1]?
  let opcode := (hi <<< 8) ||| lo
  match Interpreter.decode_opcode opcode with
  | Instruction.INVALID => some (s1, TickResult.err "Invalid instruction.")
  | instr => do
    let (s2, st) ← s1.execute_instruction instr inp rnd
    some ({ s2 with previous_status := st }, TickResult.ok st)

/-- `Interpreter::execute_next_instruction` (lines 416-451): decrement the two
timers, fetch the big-endian opcode at the program counter, decode it, report
`INVALID` as a fatal error, otherwise execute the instruction.  The display and
sound collaborators receive only read-only signals, so they do not appear in the
state. -/
def Interpreter.execute_next_instruction (s : Interpreter) (inp : Input) (rnd : Nat) :
    Option (Interpreter × TickResult) :=
  tickFetchExec (timerStep s) inp rnd

def zipXor (a b : List Nat) : List Nat := List.zipWith (fun x y => x ^^^ y) a b

def oneHot (len i v : Nat) : List Nat := (List.replicate len 0).set i v

def rowMask (mem : List Nat) (memReg x y row : Nat) : Option (List Nat) := do
  let screen_y := (y + row) % 256
  let bit_offset := x % 8
  let sprite_byte ← mem[(memReg + row) % 65536]?
  let sprite_bits := ((sprite_byte % 65536) <<< (8 - bit_offset)) % 65536
  let fb_byte_idx := (x / 8 + screen_y * 8) % 256
  let i2 := if fb_byte_idx = 255 then 0 else fb_byte_idx + 1
  some (zipXor (oneHot 256 fb_byte_idx ((sprite_bits >>> 8) % 256))
               (oneHot 256 i2 (sprite_bits % 256)))

def rowMasks (mem : List Nat) (memReg x y : Nat) : Nat → Nat → Option (List Nat)
  | 0, _ => some (List.replicate 256 0)
  | k + 1, row => do
    let m ← rowMask mem memReg x y row
    let ms ← rowMasks mem memReg x y k (row + 1)
    some (zipXor m ms)

/-- A well-formed machine state: the field shapes of `Interpreter::new`
(zeroed memory, program counter at 0x200). -/
def baseInterp : Interpreter where
  framebuffer := List.replicate 256 0
  memory := List.replicate 4095 0
  registers := List.replicate 16 0
  stack := List.replicate 15 0
  memory_register := 0
  delay_timer := 0
  sound_timer := 0
  program_counter := 0x200
  stack_pointer := 0
  previous_status := ExecutionStatus.Ok

/-- All sixteen logical keys up. -/
def baseInput : Input := ⟨List.replicate 16 KeyState.KeyUp⟩

/-- Key 5 newly pressed, everything else up. -/
def pressedInput : Input := ⟨(List.replicate 16 KeyState.KeyUp).set 5 KeyState.KeyPressed⟩

/-- A successful zero-row draw from the base state, for the C6 witness. -/
def c6s1 : Interpreter := { baseInterp with program_counter := 514 }

/-- Machine state whose program memory holds the opcode 0xF00A (wait for key
into register 0) at the initial program counter 0x200. -/
def c8state : Interpreter :=
  { baseInterp with memory := ((List.replicate 4095 0).set 512 0xF0).set 513 0x0A }

example : Interpreter.decode_opcode 0x00E0 = Instruction.CLS := rfl

example : Interpreter.decode_opcode 0xF00A = Instruction.LDRK 0 := rfl

example : Interpreter.decode_opcode 0x8AB4 = Instruction.ADDRR 0xA 0xB := rfl

example : Interpreter.decode_opcode 0xF101 = Instruction.INVALID := rfl

example : decode_opcode_main 0xF101 = none := rfl

example : decode_opcode_main 0x8AB4 = some (Instruction.ADDRR 0xA 0xB) := rfl

theorem getElem?_isSome_iff {α : Type} (l : List α) (i : Nat) :
    l[i]?.isSome = true ↔ i < l.length := by
  rw [Option.isSome_iff_exists]
  constructor
  · rintro ⟨a, ha⟩
    exact (List.getElem?_eq_some.mp ha).1
  · intro h
    exact ⟨l[i], List.getElem?_eq_getElem h⟩

theorem findIdx?_bound {α : Type} (p : α → Bool) (l : List α) :
    ∀ start i, List.findIdx? p l start = some i → i < start + l.length := by
  induction l with
  | nil => intro start i h; simp [List.findIdx?_nil] at h
  | cons a t ih =>
    intro start i h
    rw [List.findIdx?_cons] at h
    by_cases hp : p a
    · rw [if_pos hp] at h
      simp at h; simp; omega
    · rw [if_neg hp] at h
      have := ih (start + 1) i h
      simp; omega

theorem writeArr_eq_of_lt (l : List Nat) (i v : Nat) (h : i < l.length) :
    writeArr l i v = some (l.set i v) := by
  simp [writeArr, h]

theorem int_sub_pos_iff (a b : Nat) : ((a : Int) - (b : Int) > 0) ↔ b < a := by omega

theorem length_zipXor (a b : List Nat) : (zipXor a b).length = min a.length b.length := by
  simp [zipXor, List.length_zipWith]

theorem length_oneHot (len i v : Nat) : (oneHot len i v).length = len := by
  simp [oneHot]

theorem set_xor_eq_zipXor (fb : List Nat) (i a b0 : Nat) (h : fb[i]? = some b0) :
    fb.set i (b0 ^^^ a) = zipXor fb (oneHot fb.length i a) := by
  obtain ⟨hi, hval⟩ := List.getElem?_eq_some.mp h
  apply List.ext_getElem
  · simp [zipXor, oneHot, List.length_zipWith]
  · intro j h1 h2
    have hj : j < fb.length := by simpa using h1
    by_cases hij : i = j
    · subst hij
      simp [zipXor, oneHot, List.getElem_zipWith, List.getElem_set, List.getElem_replicate, hval]
    · simp [zipXor, oneHot, List.getElem_zipWith, List.getElem_set, List.getElem_replicate, hij]

theorem zipXor_assoc (a b c : List Nat) : zipXor (zipXor a b) c = zipXor a (zipXor b c) := by
  induction a generalizing b c with
  | nil => simp [zipXor]
  | cons x xs ih =>
    cases b with
    | nil => simp [zipXor]
    | cons y ys =>
      cases c with
      | nil => simp [zipXor]
      | cons z zs => simp [zipXor, Nat.xor_assoc] at ih ⊢; exact ih ys zs

theorem zipXor_cancel (a b : List Nat) (h : b.length = a.length) : zipXor (zipXor a b) b = a := by
  induction a generalizing b with
  | nil => simp [zipXor]
  | cons x xs ih =>
    cases b with
    | nil => simp at h
    | cons y ys =>
      simp only [List.length_cons] at h
      simp only [zipXor, List.zipWith_cons_cons]
      refine congrArg₂ List.cons (Nat.xor_cancel_right y x) ?_
      exact ih ys (by omega)

theorem zipXor_replicate_zero (a : List Nat) : zipXor a (List.replicate a.length 0) = a := by
  induction a with
  | nil => simp [zipXor]
  | cons x xs ih =>
    simp only [List.length_cons, List.replicate_succ, zipXor, List.zipWith_cons_cons]
    refine congrArg₂ List.cons (Nat.xor_zero x) ?_
    exact ih

theorem two_set_xor (fb : List Nat) (h : fb.length = 256) (i1 A B : Nat)
    (hi1 : i1 < fb.length) :
    (if i1 = (fb.set i1 (fb[i1] ^^^ A)).length - 1 then
       ((fb.set i1 (fb[i1] ^^^ A))[0]?.bind fun b1 =>
         some ((fb.set i1 (fb[i1] ^^^ A)).set 0 (b1 ^^^ B)))
     else
       ((fb.set i1 (fb[i1] ^^^ A))[i1 + 1]?.bind fun b1 =>
         some ((fb.set i1 (fb[i1] ^^^ A)).set (i1 + 1) (b1 ^^^ B)))) =
    some (zipXor fb (zipXor (oneHot 256 i1 A)
      (oneHot 256 (if i1 = 255 then 0 else i1 + 1) B))) := by
  have hA : fb.set i1 (fb[i1] ^^^ A) = zipXor fb (oneHot 256 i1 A) := by
    have := set_xor_eq_zipXor fb i1 A fb[i1] (List.getElem?_eq_getElem hi1)
    rwa [h] at this
  rw [hA]
  have hlen : (zipXor fb (oneHot 256 i1 A)).length = 256 := by
    simp [length_zipXor, length_oneHot, h]
  rw [hlen]
  simp only [show (256 : Nat) - 1 = 255 from rfl]
  by_cases hc : i1 = 255
  · rw [if_pos hc, if_pos hc]
    have h0 : (0 : Nat) < (zipXor fb (oneHot 256 i1 A)).length := by rw [hlen]; norm_num
    rw [List.getElem?_eq_getElem h0]
    simp only [Option.some_bind]
    have hB := set_xor_eq_zipXor (zipXor fb (oneHot 256 i1 A)) 0 B _
      (List.getElem?_eq_getElem h0)
    rw [hB, hlen, zipXor_assoc]
  · rw [if_neg hc, if_neg hc]
    have hi2 : i1 + 1 < (zipXor fb (oneHot 256 i1 A)).length := by rw [hlen]; omega
    rw [List.getElem?_eq_getElem hi2]
    simp only [Option.some_bind]
    have hB := set_xor_eq_zipXor (zipXor fb (oneHot 256 i1 A)) (i1 + 1) B _
      (List.getElem?_eq_getElem hi2)
    rw [hB, hlen, zipXor_assoc]

theorem drawRow_eq (mem : List Nat) (memReg x y row : Nat) (fb : List Nat)
    (h : fb.length = 256) :
    drawRow mem memReg x y row fb =
      (rowMask mem memReg x y row).map (fun m => zipXor fb m) := by
  unfold drawRow rowMask
  cases hsb : mem[(memReg + row) % 65536]? with
  | none => simp [hsb]
  | some sb =>
    simp only [hsb, Option.bind_eq_bind, Option.some_bind, Option.map_some']
    have hi1 : (x / 8 + ((y + row) % 256) * 8) % 256 < fb.length := by
      rw [h]; exact Nat.mod_lt _ (by norm_num)
    rw [List.getElem?_eq_getElem hi1]
    simp only [Option.some_bind]
    exact two_set_xor fb h _ _ _ hi1

theorem rowMask_length (mem : List Nat) (memReg x y row : Nat) (m : List Nat)
    (h : rowMask mem memReg x y row = some m) : m.length = 256 := by
  unfold rowMask at h
  cases hsb : mem[(memReg + row) % 65536]? with
  | none => rw [hsb] at h; simp at h
  | some sb =>
    rw [hsb] at h
    simp only [Option.bind_eq_bind, Option.some_bind, Option.some_inj] at h
    rw [← h]
    simp [length_zipXor, length_oneHot]

theorem rowMasks_length (mem : List Nat) (memReg x y : Nat) (k : Nat) :
    ∀ row M, rowMasks mem memReg x y k row = some M → M.length = 256 := by
  induction k with
  | zero =>
    intro row M h
    simp only [rowMasks, Option.some_inj] at h
    rw [← h]; simp
  | succ k ih =>
    intro row M h
    simp only [rowMasks] at h
    cases hm : rowMask mem memReg x y row with
    | none => rw [hm] at h; simp at h
    | some m =>
      rw [hm] at h
      simp only [Option.bind_eq_bind, Option.some_bind] at h
      cases hms : rowMasks mem memReg x y k (row + 1) with
      | none => rw [hms] at h; simp at h
      | some ms =>
        rw [hms] at h
        simp only [Option.some_bind, Option.some_inj] at h
        rw [← h]
        have := ih (row + 1) ms hms
        simp [length_zipXor, rowMask_length mem memReg x y row m hm, this]

theorem drawRowsAux_eq (mem : List Nat) (memReg x y : Nat) (k : Nat) :
    ∀ row fb, fb.length = 256 →
      drawRowsAux mem memReg x y k row fb =
        (rowMasks mem memReg x y k row).map (fun m => zipXor fb m) := by
  induction k with
  | zero =>
    intro row fb h
    simp only [drawRowsAux, rowMasks, Option.map_some']
    rw [show (256 : Nat) = fb.length from h.symm, zipXor_replicate_zero]
  | succ k ih =>
    intro row fb h
    simp only [drawRowsAux, rowMasks]
    rw [drawRow_eq mem memReg x y row fb h]
    cases hm : rowMask mem memReg x y row with
    | none => simp
    | some m =>
      simp only [Option.map_some', Option.bind_eq_bind, Option.some_bind]
      have hm256 : m.length = 256 := rowMask_length mem memReg x y row m hm
      have hlen : (zipXor fb m).length = 256 := by simp [length_zipXor, h, hm256]
      rw [ih (row + 1) (zipXor fb m) hlen]
      cases hms : rowMasks mem memReg x y k (row + 1) with
      | none => simp
      | some ms =>
        simp only [Option.map_some', Option.some_bind, Option.some_inj]
        exact zipXor_assoc fb m ms

theorem rowMask_isSome (mem : List Nat) (memReg x y row : Nat) :
    (rowMask mem memReg x y row).isSome = true ↔ (memReg + row) % 65536 < mem.length := by
  rw [← getElem?_isSome_iff mem ((memReg + row) % 65536)]
  unfold rowMask
  cases hsb : mem[(memReg + row) % 65536]? with
  | none => simp [hsb]
  | some sb => simp [hsb]

theorem rowMasks_isSome (mem : List Nat) (memReg x y : Nat) (k : Nat) :
    ∀ row, (rowMasks mem memReg x y k row).isSome = true ↔
      ∀ j, j < k → (memReg + (row + j)) % 65536 < mem.length := by
  induction k with
  | zero => intro row; simp [rowMasks]
  | succ k ih =>
    intro row
    simp only [rowMasks]
    cases hm : rowMask mem memReg x y row with
    | none =>
      simp only [Option.bind_eq_bind, Option.none_bind, Option.isSome_none]
      constructor
      · intro h; exact absurd h (by simp)
      · intro h
        have h0 := h 0 (by omega)
        rw [show memReg + (row + 0) = memReg + row from by omega] at h0
        have := (rowMask_isSome mem memReg x y row).mpr h0
        rw [hm] at this
        simp at this
    | some m =>
      simp only [Option.bind_eq_bind, Option.some_bind]
      have hrow : (memReg + row) % 65536 < mem.length := by
        have := (rowMask_isSome mem memReg x y row).mp (by rw [hm]; rfl)
        exact this
      cases hms : rowMasks mem memReg x y k (row + 1) with
      | none =>
        simp only [Option.none_bind, Option.isSome_none]
        constructor
        · intro h; exact absurd h (by simp)
        · intro h
          have : ∀ j, j < k → (memReg + (row + 1 + j)) % 65536 < mem.length := by
            intro j hj
            have := h (j + 1) (by omega)
            rw [show row + (j + 1) = row + 1 + j from by omega] at this
            exact this
          have hms2 := (ih (row + 1)).mpr this
          rw [hms] at hms2
          simp at hms2
      | some ms =>
        simp only [Option.some_bind, Option.isSome_some, true_iff]
        intro j hj
        rcases Nat.eq_zero_or_pos j with rfl | hjp
        · rw [show row + 0 = row from by omega]; exact hrow
        · have hms2 := (ih (row + 1)).mp (by rw [hms]; rfl)
          have := hms2 (j - 1) (by omega)
          rw [show row + 1 + (j - 1) = row + j from by omega] at this
          exact this

/-- The main.rs decoder agrees with the interpreter.rs decoder wherever it
returns, and panics exactly on the family-0xF opcodes the interpreter decoder
maps to `INVALID`. -/
theorem decode_main_eq (op : Nat) :
    decode_opcode_main op =
      if (op &&& 0xf000) >>> 12 = 0xf ∧ Interpreter.decode_opcode op = Instruction.INVALID
      then none else some (Interpreter.decode_opcode op) := by
  unfold decode_opcode_main Interpreter.decode_opcode
  split <;> first
    | (split <;> simp_all)
    | simp_all

/-- Every instruction other than CALL leaves the stack array untouched. -/
theorem exec_stack_unchanged (s : Interpreter) (inp : Input) (rnd : Nat)
    (instr : Instruction) (s1 : Interpreter) (st : ExecutionStatus)
    (hnotcall : ∀ a, instr ≠ Instruction.CALL a)
    (h : s.execute_instruction instr inp rnd = some (s1, st)) :
    s1.stack = s.stack := by
  cases instr <;> try exact absurd rfl (hnotcall _)
  all_goals
    simp only [Interpreter.execute_instruction] at h
  all_goals
    try (rcases hk : inp.any_key_pressed with _ | k <;> rw [hk] at h)
  all_goals
    try split at h
  all_goals
    try split at h
  all_goals
    try simp only [Option.bind_eq_bind, Option.bind_eq_some, Option.some.injEq,
      Prod.mk.injEq] at h
  all_goals
    first
    | (injection h with h1 h2; injection h1 with h1 h2; subst h1;
        first | rfl | (split <;> rfl))
    | (rcases h with ⟨rfl, rfl⟩; first | rfl | (split <;> rfl))
    | (rcases h with ⟨x1, hx1, rfl, rfl⟩; first | rfl | (split <;> rfl))
    | (rcases h with ⟨x1, hx1, x2, hx2, rfl, rfl⟩; first | rfl | (split <;> rfl))
    | (rcases h with ⟨x1, hx1, x2, hx2, x3, hx3, rfl, rfl⟩; first | rfl | (split <;> rfl))
    | (rcases h with ⟨x1, hx1, x2, hx2, x3, hx3, x4, hx4, rfl, rfl⟩;
        first | rfl | (split <;> rfl))
    | (rcases h with ⟨x1, hx1, x2, hx2, x3, hx3, x4, hx4, x5, hx5, rfl, rfl⟩;
        first | rfl | (split <;> rfl))
    | (rcases h with ⟨x1, hx1, x2, hx2, x3, hx3, x4, hx4, x5, hx5, x6, hx6, rfl, rfl⟩;
        first | rfl | (split <;> rfl))
    | simp at h

/-- Claim C2 (corrected): the interpreter.rs decoder is a pure total function:
every 16-bit opcode yields exactly one instruction variant, unrecognized
patterns yield `INVALID`, and re-decoding is identical.  The main.rs variant
agrees with it wherever it returns a value, but on family-0xF opcodes whose low
byte is not one of the nine recognized sub-opcodes it panics instead of
returning `INVALID`, so it is not total. -/
theorem c2_amended : ∀ op : Nat,
    (∃ i, Interpreter.decode_opcode op = i ∧ Interpreter.decode_opcode op = i)
    ∧ (decode_opcode_main op = none ↔
        ((op &&& 0xf000) >>> 12 = 0xf ∧ Interpreter.decode_opcode op = Instruction.INVALID))
    ∧ (∀ i, decode_opcode_main op = some i → i = Interpreter.decode_opcode op) := by
  intro op
  refine ⟨⟨Interpreter.decode_opcode op, rfl, rfl⟩, ?_, ?_⟩
  · rw [decode_main_eq op]
    split <;> simp_all
  · intro i h
    rw [decode_main_eq op] at h
    split at h <;> simp_all

/-- Claim C2 counterexample: opcode 0xF000 makes the main.rs decoder panic
(modelled as `none`) although the interpreter.rs decoder maps it to `INVALID`,
refuting totality "for every decode function in the program". -/
theorem c2_counterexample :
    decode_opcode_main 0xF000 = none
    ∧ Interpreter.decode_opcode 0xF000 = Instruction.INVALID := by
  exact ⟨rfl, rfl⟩

/-- Claim C9: each tick first decrements each non-zero 8-bit timer by exactly 1
(leaving zero timers at 0, never underflowing), and only then runs the
fetch-decode-execute phase on the timer-stepped state; each tick changes each
timer by at most 1. -/
theorem c9_timers :
    ∀ (s : Interpreter) (inp : Input) (rnd : Nat),
      s.execute_next_instruction inp rnd = tickFetchExec (timerStep s) inp rnd
      ∧ (timerStep s).delay_timer = (if 0 < s.delay_timer then s.delay_timer - 1 else 0)
      ∧ (timerStep s).sound_timer = (if 0 < s.sound_timer then s.sound_timer - 1 else 0)
      ∧ (timerStep s).delay_timer ≤ s.delay_timer
      ∧ s.delay_timer - (timerStep s).delay_timer ≤ 1
      ∧ (timerStep s).sound_timer ≤ s.sound_timer
      ∧ s.sound_timer - (timerStep s).sound_timer ≤ 1 := by
  intro s inp rnd
  refine ⟨rfl, ?_, ?_, ?_, ?_, ?_, ?_⟩ <;> simp only [timerStep] <;>
    (repeat' split) <;> omega

/-- Claim C1 counterexample: with register 0xF holding 200, `ADDRV 0xF 100`
re-reads the destination after the flag write, so register 0xF ends at
(1 + 100) % 256 = 101, not the 8-bit wrapped sum (200 + 100) % 256 = 44 of the
pre-instruction operands that the claim asserts for the last write. -/
theorem c1_counterexample :
    ((({ baseInterp with registers := (List.replicate 16 0).set 15 200 }).execute_instruction
        (Instruction.ADDRV 15 100) baseInput 0).map
      fun (p : Interpreter × ExecutionStatus) => p.1.registers[15]?) = some (some 101)
    ∧ wrap 256 (200 + 100) = 44 ∧ (101 : Nat) ≠ 44 := by
  refine ⟨rfl, rfl, by decide⟩

/-- Claim C4 counterexample: with register 0xF holding 10 and register 0 holding
3, `SUBRR 0xF 0` sets the flag (10 > 3), then re-reads register 0xF as 1, so the
stored difference is (1 - 3) wrapped = 254, not the wrapping difference
10 - 3 = 7 of the pre-instruction values that the claim asserts. -/
theorem c4_counterexample :
    ((({ baseInterp with
          registers := ((List.replicate 16 0).set 15 10).set 0 3 }).execute_instruction
        (Instruction.SUBRR 15 0) baseInput 0).map
      fun (p : Interpreter × ExecutionStatus) => p.1.registers[15]?) = some (some 254)
    ∧ wsub 256 10 3 = 7 ∧ (254 : Nat) ≠ 7 := by
  refine ⟨rfl, rfl, by decide⟩

/-- Claim C3 counterexample: a draw with the index register at 4095 reads
`memory[4095]` on the 4095-byte memory array, which is an out-of-bounds panic
(`none`), not a wrapping access, so not every non-Invalid instruction succeeds. -/
theorem c3_counterexample :
    ({ baseInterp with memory_register := 4095 }).execute_instruction
      (Instruction.DRW 0 0 1) baseInput 0 = none := by
  simp only [Interpreter.execute_instruction, baseInterp,
    show (List.replicate 16 (0 : Nat))[0]? = some 0 from by simp]
  simp only [Option.bind_eq_bind, Option.some_bind]
  have hfb : (List.replicate 256 (0 : Nat)).length = 256 := by simp
  have hnone : rowMasks (List.replicate 4095 (0 : Nat)) 4095 0 0 1 0 = none := by
    rcases hM : rowMasks (List.replicate 4095 (0 : Nat)) 4095 0 0 1 0 with _ | M
    · rfl
    · exfalso
      have hall := (rowMasks_isSome (List.replicate 4095 (0 : Nat)) 4095 0 0 1 0).mp
        (by rw [hM]; rfl)
      have h0 := hall 0 (by omega)
      rw [show (4095 + (0 + 0)) % 65536 = 4095 from by norm_num,
        List.length_replicate] at h0
      omega
  unfold drawRows
  rw [drawRowsAux_eq (List.replicate 4095 (0 : Nat)) 4095 0 0 1 0 (List.replicate 256 0) hfb,
    hnone]
  rfl

/-- Claim C10 counterexample: a return executed with stack pointer 0 does not
fail; it loads stack slot 0 (still 0) into the program counter and silently
wraps the stack pointer to 2^64 - 1, refuting "and then fails by decrementing
the stack pointer below zero". -/
theorem c10_counterexample :
    ((baseInterp.execute_instruction Instruction.RET baseInput 0).map
      fun (p : Interpreter × ExecutionStatus) => (p.1.stack_pointer, p.1.program_counter)) =
      some (2 ^ 64 - 1, 0) := by
  rfl

/-- Claim C5 (code bug): drawing the digit-0 sprite row 0xF0 over a lit pixel
erases it (framebuffer byte 0 goes from 0x80 to 0x70, a collision), yet the
registers, including the flag register 0xF, are left completely unchanged: the
draw instruction of `interpreter.rs` never writes a collision indicator, in
conflict with the canonical instruction reference its own comment cites. -/
theorem c5_draw_ignores_registers :
    ((({ baseInterp with
          framebuffer := (List.replicate 256 0).set 0 0x80,
          memory := (List.replicate 4095 0).set 0 0xf0 }).execute_instruction
        (Instruction.DRW 0 1 1) baseInput 0).map
      fun (p : Interpreter × ExecutionStatus) => (p.1.registers, p.1.framebuffer[0]?)) =
      some (List.replicate 16 0, some 0x70) := by
  have e2 : drawRow ((List.replicate 4095 (0 : Nat)).set 0 0xf0) 0 0 0 0
      ((List.replicate 256 (0 : Nat)).set 0 0x80) =
      some ((((List.replicate 256 (0 : Nat)).set 0 0x80).set 0 0x70).set 1 0) := by
    unfold drawRow
    simp only [show ((0 : Nat) + 0) % 65536 = 0 from by norm_num, List.getElem?_set,
      List.getElem?_replicate, List.length_set, List.length_replicate]
    norm_num
    simp only [show (128 ^^^ ((240 <<< 8) % 65536) >>> 8 % 256 : Nat) = 112 from by decide,
      show (((240 <<< 8) % 65536) % 256 : Nat) = 0 from by decide,
      show ((240 <<< 8) % 256 : Nat) = 0 from by decide]
  have e1 : drawRows ((List.replicate 4095 (0 : Nat)).set 0 0xf0) 0 0 0 1
      ((List.replicate 256 (0 : Nat)).set 0 0x80) =
      some ((((List.replicate 256 (0 : Nat)).set 0 0x80).set 0 0x70).set 1 0) := by
    unfold drawRows
    have step : drawRowsAux ((List.replicate 4095 (0 : Nat)).set 0 0xf0) 0 0 0 1 0
        ((List.replicate 256 (0 : Nat)).set 0 0x80) =
        (drawRow ((List.replicate 4095 (0 : Nat)).set 0 0xf0) 0 0 0 0
          ((List.replicate 256 (0 : Nat)).set 0 0x80)).bind
          (fun fb1 => drawRowsAux ((List.replicate 4095 (0 : Nat)).set 0 0xf0) 0 0 0 0 1 fb1) :=
      rfl
    rw [step, e2]
    rfl
  simp only [Interpreter.execute_instruction, baseInterp,
    show (List.replicate 16 (0 : Nat))[0]? = some 0 from by simp,
    show (List.replicate 16 (0 : Nat))[1]? = some 0 from by simp,
    Option.bind_eq_bind, Option.some_bind, e1, Option.map_some']
  refine congrArg some (Prod.ext rfl ?_)
  show ((((List.replicate 256 (0 : Nat)).set 0 0x80).set 0 0x70).set 1 0)[0]? = some 0x70
  simp only [List.getElem?_set, List.getElem?_replicate, List.length_set, List.length_replicate]
  norm_num

/-- Claim C1 (corrected): both add forms compute the operand sum in a wider
integer from the pre-instruction values, write the flag register 0xF first
(1 iff the sum exceeds 255), and then store the 8-bit wrapped sum of the
operands as re-read after the flag write.  When neither operand register is 0xF
this is the wrapped sum of the pre-instruction values; when the destination or
the source is 0xF, the just-written flag replaces that operand in the final
write, so the destination does not in general receive the wrapped
pre-instruction sum. -/
theorem c1_amended (s : Interpreter) (inp : Input) (rnd : Nat) (r sx v pre pres : Nat)
    (hlen : s.registers.length = 16) (hr : r < 16) (hsx : sx < 16)
    (hpre : s.registers[r]? = some pre) (hpres : s.registers[sx]? = some pres) :
    ((s.execute_instruction (Instruction.ADDRV r v) inp rnd).map
        (fun (p : Interpreter × ExecutionStatus) => p.1.registers)) =
      some ((s.registers.set 15 (if pre + v > 255 then 1 else 0)).set r
        (wrap 256 ((if r = 15 then (if pre + v > 255 then 1 else 0) else pre) + v)))
    ∧ ((s.execute_instruction (Instruction.ADDRR r sx) inp rnd).map
        (fun (p : Interpreter × ExecutionStatus) => p.1.registers)) =
      some ((s.registers.set 15 (if pres + pre > 255 then 1 else 0)).set r
        (wrap 256 ((if r = 15 then (if pres + pre > 255 then 1 else 0) else pre)
          + (if sx = 15 then (if pres + pre > 255 then 1 else 0) else pres)))) := by
  constructor
  · simp only [Interpreter.execute_instruction]
    rw [hpre]
    simp only [Option.bind_eq_bind, Option.some_bind]
    rw [writeArr_eq_of_lt _ _ _ (by omega)]
    simp only [Option.some_bind]
    rw [List.getElem?_set]
    by_cases h15 : r = 15
    · subst h15
      simp only [if_pos rfl, show (15:Nat) < s.registers.length from by omega, if_pos,
        Option.some_bind]
      rw [writeArr_eq_of_lt _ _ _ (by simp [hlen])]
      simp
    · rw [if_neg (fun h => h15 h.symm), hpre]
      simp only [Option.some_bind]
      rw [writeArr_eq_of_lt _ _ _ (by simp [hlen, hr])]
      simp [h15]
  · simp only [Interpreter.execute_instruction]
    rw [hpres]
    simp only [Option.bind_eq_bind, Option.some_bind]
    rw [hpre]
    simp only [Option.some_bind]
    rw [writeArr_eq_of_lt _ _ _ (by omega)]
    simp only [Option.some_bind]
    rw [List.getElem?_set]
    by_cases hA : r = 15
    · subst hA
      simp only [if_pos rfl, show (15:Nat) < s.registers.length from by omega, if_pos,
        Option.some_bind]
      rw [List.getElem?_set]
      by_cases hB : sx = 15
      · subst hB
        simp only [if_pos rfl, show (15:Nat) < s.registers.length from by omega, if_pos,
          Option.some_bind]
        rw [writeArr_eq_of_lt _ _ _ (by simp [hlen])]
        simp
      · rw [if_neg (fun h => hB h.symm), hpres]
        simp only [Option.some_bind]
        rw [writeArr_eq_of_lt _ _ _ (by simp [hlen])]
        simp [hB]
    · rw [if_neg (fun h => hA h.symm), hpre]
      simp only [Option.some_bind]
      rw [List.getElem?_set]
      by_cases hB : sx = 15
      · subst hB
        simp only [if_pos rfl, show (15:Nat) < s.registers.length from by omega, if_pos,
          Option.some_bind]
        rw [writeArr_eq_of_lt _ _ _ (by simp [hlen, hr])]
        simp [hA]
      · rw [if_neg (fun h => hB h.symm), hpres]
        simp only [Option.some_bind]
        rw [writeArr_eq_of_lt _ _ _ (by simp [hlen, hr])]
        simp [hA, hB]

/-- Witness for C1 at registers 0 and 1 of the base state (both holding 0). -/
theorem c1_amended_witness :
    ((baseInterp.execute_instruction (Instruction.ADDRV 0 5) baseInput 0).map
        (fun (p : Interpreter × ExecutionStatus) => p.1.registers)) =
      some (((List.replicate 16 0).set 15 0).set 0 5)
    ∧ ((baseInterp.execute_instruction (Instruction.ADDRR 0 1) baseInput 0).map
        (fun (p : Interpreter × ExecutionStatus) => p.1.registers)) =
      some (((List.replicate 16 0).set 15 0).set 0 0) :=
  c1_amended baseInterp baseInput 0 0 1 5 0 0 rfl (by omega) (by omega) rfl rfl

/-- Claim C4 (corrected): both subtract forms set the flag register 0xF to 1
iff the minuend is strictly greater than the subtrahend (compared on the
pre-instruction values), and then store the wrapping 8-bit difference of the
operands as re-read after the flag write.  When neither operand register is 0xF
this is the wrapping difference of the pre-instruction values; when the
destination or an operand is 0xF, the just-written flag replaces that operand,
so the stored value is not in general the pre-instruction difference. -/
theorem c4_amended (s : Interpreter) (inp : Input) (rnd : Nat) (r0 r1 a b : Nat)
    (hlen : s.registers.length = 16) (h0 : r0 < 16) (h1 : r1 < 16)
    (ha : s.registers[r0]? = some a) (hb : s.registers[r1]? = some b) :
    ((s.execute_instruction (Instruction.SUBRR r0 r1) inp rnd).map
        (fun (p : Interpreter × ExecutionStatus) => p.1.registers)) =
      some ((s.registers.set 15 (if b < a then 1 else 0)).set r0
        (wsub 256 (if r0 = 15 then (if b < a then 1 else 0) else a)
          (if r1 = 15 then (if b < a then 1 else 0) else b)))
    ∧ ((s.execute_instruction (Instruction.SUBN r0 r1) inp rnd).map
        (fun (p : Interpreter × ExecutionStatus) => p.1.registers)) =
      some ((s.registers.set 15 (if a < b then 1 else 0)).set r0
        (wsub 256 (if r1 = 15 then (if a < b then 1 else 0) else b)
          (if r0 = 15 then (if a < b then 1 else 0) else a))) := by
  constructor
  · simp only [Interpreter.execute_instruction]
    rw [ha]
    simp only [Option.bind_eq_bind, Option.some_bind]
    rw [hb]
    simp only [Option.some_bind]
    rw [show (if (a : Int) - (b : Int) > 0 then (1:Nat) else 0) = if b < a then 1 else 0 from by
      rcases Nat.lt_or_ge b a with h | h
      · rw [if_pos ((int_sub_pos_iff a b).mpr h), if_pos h]
      · rw [if_neg (fun hc => by omega), if_neg (by omega)]]
    rw [writeArr_eq_of_lt _ _ _ (by omega)]
    simp only [Option.some_bind]
    rw [List.getElem?_set]
    by_cases hA : r0 = 15
    · subst hA
      simp only [if_pos rfl, show (15:Nat) < s.registers.length from by omega, if_pos,
        Option.some_bind]
      rw [List.getElem?_set]
      by_cases hB : r1 = 15
      · subst hB
        simp only [if_pos rfl, show (15:Nat) < s.registers.length from by omega, if_pos,
          Option.some_bind]
        rw [writeArr_eq_of_lt _ _ _ (by simp [hlen])]
        simp
      · rw [if_neg (fun h => hB h.symm), hb]
        simp only [Option.some_bind]
        rw [writeArr_eq_of_lt _ _ _ (by simp [hlen])]
        simp [hB]
    · rw [if_neg (fun h => hA h.symm), ha]
      simp only [Option.some_bind]
      rw [List.getElem?_set]
      by_cases hB : r1 = 15
      · subst hB
        simp only [if_pos rfl, show (15:Nat) < s.registers.length from by omega, if_pos,
          Option.some_bind]
        rw [writeArr_eq_of_lt _ _ _ (by simp [hlen, h0])]
        simp [hA]
      · rw [if_neg (fun h => hB h.symm), hb]
        simp only [Option.some_bind]
        rw [writeArr_eq_of_lt _ _ _ (by simp [hlen, h0])]
        simp [hA, hB]
  · simp only [Interpreter.execute_instruction]
    rw [hb]
    simp only [Option.bind_eq_bind, Option.some_bind]
    rw [ha]
    simp only [Option.some_bind]
    rw [show (if (b : Int) - (a : Int) > 0 then (1:Nat) else 0) = if a < b then 1 else 0 from by
      rcases Nat.lt_or_ge a b with h | h
      · rw [if_pos ((int_sub_pos_iff b a).mpr h), if_pos h]
      · rw [if_neg (fun hc => by omega), if_neg (by omega)]]
    rw [writeArr_eq_of_lt _ _ _ (by omega)]
    simp only [Option.some_bind]
    rw [List.getElem?_set]
    by_cases hB : r1 = 15
    · subst hB
      simp only [if_pos rfl, show (15:Nat) < s.registers.length from by omega, if_pos,
        Option.some_bind]
      rw [List.getElem?_set]
      by_cases hA : r0 = 15
      · subst hA
        simp only [if_pos rfl, show (15:Nat) < s.registers.length from by omega, if_pos,
          Option.some_bind]
        rw [writeArr_eq_of_lt _ _ _ (by simp [hlen])]
        simp
      · rw [if_neg (fun h => hA h.symm), ha]
        simp only [Option.some_bind]
        rw [writeArr_eq_of_lt _ _ _ (by simp [hlen, h0])]
        simp [hA]
    · rw [if_neg (fun h => hB h.symm), hb]
      simp only [Option.some_bind]
      rw [List.getElem?_set]
      by_cases hA : r0 = 15
      · subst hA
        simp only [if_pos rfl, show (15:Nat) < s.registers.length from by omega, if_pos,
          Option.some_bind]
        rw [writeArr_eq_of_lt _ _ _ (by simp [hlen])]
        simp [hB]
      · rw [if_neg (fun h => hA h.symm), ha]
        simp only [Option.some_bind]
        rw [writeArr_eq_of_lt _ _ _ (by simp [hlen, h0])]
        simp [hA, hB]

/-- Witness for C4 at registers 0 and 1 of the base state (both holding 0). -/
theorem c4_amended_witness :
    ((baseInterp.execute_instruction (Instruction.SUBRR 0 1) baseInput 0).map
        (fun (p : Interpreter × ExecutionStatus) => p.1.registers)) =
      some (((List.replicate 16 0).set 15 0).set 0 0)
    ∧ ((baseInterp.execute_instruction (Instruction.SUBN 0 1) baseInput 0).map
        (fun (p : Interpreter × ExecutionStatus) => p.1.registers)) =
      some (((List.replicate 16 0).set 15 0).set 0 0) :=
  c4_amended baseInterp baseInput 0 0 1 0 0 rfl (by omega) (by omega) rfl rfl

/-- Claim C6: for every machine state (with the 256-byte framebuffer shape) in
which a draw succeeds, the draw leaves registers, memory and the index register
untouched, and executing the same draw again succeeds and restores the
framebuffer to its pre-draw contents: each draw XORs a mask that depends only
on memory, the index register and the two coordinate registers, and XOR is
self-inverse. -/
theorem c6_draw_twice_restores (s : Interpreter) (inp : Input) (rnd : Nat)
    (r0 r1 n : Nat) (s1 : Interpreter) (st : ExecutionStatus)
    (hfb : s.framebuffer.length = 256)
    (h : s.execute_instruction (Instruction.DRW r0 r1 n) inp rnd = some (s1, st)) :
    s1.registers = s.registers ∧ s1.memory = s.memory ∧
    s1.memory_register = s.memory_register ∧
    ∃ s2 st2, s1.execute_instruction (Instruction.DRW r0 r1 n) inp rnd = some (s2, st2) ∧
      s2.framebuffer = s.framebuffer := by
  simp only [Interpreter.execute_instruction] at h
  cases hx : s.registers[r0]? with
  | none => rw [hx] at h; simp at h
  | some x =>
  rw [hx] at h
  simp only [Option.bind_eq_bind, Option.some_bind] at h
  cases hy : s.registers[r1]? with
  | none => rw [hy] at h; simp at h
  | some y =>
  rw [hy] at h
  simp only [Option.some_bind] at h
  cases hd : drawRows s.memory s.memory_register x y n s.framebuffer with
  | none => rw [hd] at h; simp at h
  | some fbN =>
  rw [hd] at h
  simp only [Option.some_bind, Option.some_inj] at h
  injection h with h1 h2
  subst h1
  refine ⟨rfl, rfl, rfl, ?_⟩
  unfold drawRows at hd
  rw [drawRowsAux_eq s.memory s.memory_register x y n 0 s.framebuffer hfb] at hd
  cases hM : rowMasks s.memory s.memory_register x y n 0 with
  | none => rw [hM] at hd; simp at hd
  | some M =>
  rw [hM] at hd
  simp only [Option.map_some', Option.some_inj] at hd
  have hM256 : M.length = 256 := rowMasks_length s.memory s.memory_register x y n 0 M hM
  subst hd
  have hfbN : (zipXor s.framebuffer M).length = 256 := by
    simp [length_zipXor, hfb, hM256]
  simp only [Interpreter.execute_instruction]
  rw [hx]
  simp only [Option.bind_eq_bind, Option.some_bind]
  rw [hy]
  simp only [Option.some_bind]
  unfold drawRows
  rw [drawRowsAux_eq s.memory s.memory_register x y n 0 (zipXor s.framebuffer M) hfbN, hM]
  simp only [Option.map_some', Option.some_bind]
  refine ⟨_, _, rfl, ?_⟩
  exact zipXor_cancel s.framebuffer M (hM256.trans hfb.symm)

/-- Witness for C6: a zero-height draw from the base state. -/
theorem c6_witness :
    c6s1.registers = baseInterp.registers ∧ c6s1.memory = baseInterp.memory ∧
    c6s1.memory_register = baseInterp.memory_register ∧
    ∃ s2 st2, c6s1.execute_instruction (Instruction.DRW 0 0 0) baseInput 0 = some (s2, st2) ∧
      s2.framebuffer = baseInterp.framebuffer :=
  c6_draw_twice_restores baseInterp baseInput 0 0 0 0 c6s1
    ExecutionStatus.FramebufferChanged rfl rfl

/-- Claim C3 (corrected): executing a decoded non-Invalid instruction is not
always successful: instructions that index memory or the stack out of range
panic (a bounds error) instead of wrapping.  Precisely, under the Rust field
shapes, draw succeeds iff every sprite-row address (index register plus row,
wrapped to 16 bits) is inside the 4095-byte memory; BCD store succeeds iff the
index register plus 2 is inside memory; bulk store and bulk load succeed iff
the index register plus N+1 bytes fit in memory; call succeeds iff the
incremented stack pointer is inside the 15-entry stack; and return succeeds iff
the stack pointer is inside the stack. -/
theorem c3_amended (s : Interpreter) (inp : Input) (rnd : Nat) (hWf : s.Wf)
    (r0 r1 n reg a : Nat) (h0 : r0 < 16) (h1 : r1 < 16) (hreg : reg < 16) :
    ((s.execute_instruction (Instruction.DRW r0 r1 n) inp rnd).isSome = true ↔
       ∀ row, row < n → (s.memory_register + row) % 65536 < 4095)
    ∧ ((s.execute_instruction (Instruction.LDB reg) inp rnd).isSome = true ↔
       s.memory_register + 2 < 4095)
    ∧ ((s.execute_instruction (Instruction.LDIR reg) inp rnd).isSome = true ↔
       s.memory_register + reg + 1 ≤ 4095)
    ∧ ((s.execute_instruction (Instruction.LDRI reg) inp rnd).isSome = true ↔
       s.memory_register + reg + 1 ≤ 4095)
    ∧ ((s.execute_instruction (Instruction.CALL a) inp rnd).isSome = true ↔
       (s.stack_pointer + 1) % USIZE < 15)
    ∧ ((s.execute_instruction Instruction.RET inp rnd).isSome = true ↔
       s.stack_pointer < 15) := by
  obtain ⟨hfb, hmem, hregs, hstack, hpc, hmr, hsp⟩ := hWf
  refine ⟨?_, ?_, ?_, ?_, ?_, ?_⟩
  · -- DRW
    simp only [Interpreter.execute_instruction]
    rw [List.getElem?_eq_getElem (show r0 < s.registers.length from by omega)]
    simp only [Option.bind_eq_bind, Option.some_bind]
    rw [List.getElem?_eq_getElem (show r1 < s.registers.length from by omega)]
    simp only [Option.some_bind]
    unfold drawRows
    rw [drawRowsAux_eq s.memory s.memory_register _ _ n 0 s.framebuffer hfb]
    rw [← hmem]
    rcases hM : rowMasks s.memory s.memory_register s.registers[r0] s.registers[r1] n 0 with _ | M
    · simp only [Option.map_none', Option.none_bind, Option.isSome_none]
      have := rowMasks_isSome s.memory s.memory_register s.registers[r0] s.registers[r1] n 0
      rw [hM] at this
      simp only [Option.isSome_none, Bool.false_eq_true, false_iff] at this
      constructor
      · intro hfalse; exact absurd hfalse (by simp)
      · intro hall
        exact absurd (fun j hj => by simpa using hall j hj) this
    · simp only [Option.map_some', Option.some_bind, Option.isSome_some, true_iff]
      have := rowMasks_isSome s.memory s.memory_register s.registers[r0] s.registers[r1] n 0
      rw [hM] at this
      simp only [Option.isSome_some, true_iff] at this
      intro j hj
      simpa using this j hj
  · -- LDB
    simp only [Interpreter.execute_instruction]
    rw [List.getElem?_eq_getElem (show reg < s.registers.length from by omega)]
    simp only [Option.bind_eq_bind, Option.some_bind, writeArr, List.length_set, hmem]
    by_cases hc1 : s.memory_register < 4095
    · rw [if_pos hc1]
      simp only [Option.some_bind, List.length_set, hmem]
      by_cases hc2 : s.memory_register + 1 < 4095
      · rw [if_pos hc2]
        simp only [Option.some_bind, List.length_set, hmem]
        by_cases hc3 : s.memory_register + 2 < 4095
        · rw [if_pos hc3]; simp [hc3]
        · rw [if_neg hc3]; simp [hc3]
      · rw [if_neg hc2]
        simp only [Option.none_bind, Option.isSome_none]
        constructor
        · intro hfalse; exact absurd hfalse (by simp)
        · intro hx; omega
    · rw [if_neg hc1]
      simp only [Option.none_bind, Option.isSome_none]
      constructor
      · intro hfalse; exact absurd hfalse (by simp)
      · intro hx; omega
  · -- LDIR
    simp only [Interpreter.execute_instruction, hmem, hregs]
    repeat' split
    all_goals simp_all
    all_goals omega
  · -- LDRI
    simp only [Interpreter.execute_instruction, hmem, hregs]
    repeat' split
    all_goals simp_all
    all_goals omega
  · -- CALL
    simp only [Interpreter.execute_instruction, writeArr, hstack]
    split
    · simp_all [wrap, USIZE]
    · simp_all [wrap, USIZE]
  · -- RET
    simp only [Interpreter.execute_instruction]
    rw [← hstack, ← getElem?_isSome_iff]
    rcases hst : s.stack[s.stack_pointer]? with _ | v
    · simp [hst]
    · simp [hst]

/-- Witness for C3 at the base state (index register 0, stack pointer 0). -/
theorem c3_amended_witness :
    ((baseInterp.execute_instruction (Instruction.DRW 0 0 1) baseInput 0).isSome = true ↔
       ∀ row, row < 1 → (baseInterp.memory_register + row) % 65536 < 4095)
    ∧ ((baseInterp.execute_instruction (Instruction.LDB 0) baseInput 0).isSome = true ↔
       baseInterp.memory_register + 2 < 4095)
    ∧ ((baseInterp.execute_instruction (Instruction.LDIR 0) baseInput 0).isSome = true ↔
       baseInterp.memory_register + 0 + 1 ≤ 4095)
    ∧ ((baseInterp.execute_instruction (Instruction.LDRI 0) baseInput 0).isSome = true ↔
       baseInterp.memory_register + 0 + 1 ≤ 4095)
    ∧ ((baseInterp.execute_instruction (Instruction.CALL 0) baseInput 0).isSome = true ↔
       (baseInterp.stack_pointer + 1) % USIZE < 15)
    ∧ ((baseInterp.execute_instruction Instruction.RET baseInput 0).isSome = true ↔
       baseInterp.stack_pointer < 15) :=
  c3_amended baseInterp baseInput 0
    (by refine ⟨?_, ?_, ?_, ?_, ?_, ?_, ?_⟩ <;>
          simp only [baseInterp, List.length_replicate] <;> norm_num)
    0 0 1 0 0 (by decide) (by decide) (by decide)

/-- Claim C7: bulk-storing registers 0..=N to memory at the index register I,
then bulk-loading N+1 bytes from I, reproduces the original register file
exactly, for every N in 0..=15 and every I with I + N < memory size; neither
instruction modifies the index register. -/
theorem c7_bulk_roundtrip (s : Interpreter) (inp : Input) (rnd : Nat) (N : Nat)
    (hmem : s.memory.length = 4095) (hregs : s.registers.length = 16)
    (hN : N < 16) (hI : s.memory_register + N < 4095) :
    ∃ s1 s2,
      s.execute_instruction (Instruction.LDIR N) inp rnd = some (s1, ExecutionStatus.Ok) ∧
      s1.execute_instruction (Instruction.LDRI N) inp rnd = some (s2, ExecutionStatus.Ok) ∧
      s2.registers = s.registers ∧
      s1.memory_register = s.memory_register ∧
      s2.memory_register = s.memory_register := by
  have hc1 : s.memory_register + (N + 1) ≤ s.memory.length := by omega
  have hc2 : N + 1 ≤ s.registers.length := by omega
  have hlen1 : (s.memory.take s.memory_register ++ s.registers.take (N + 1)
      ++ s.memory.drop (s.memory_register + (N + 1))).length = 4095 := by
    simp only [List.length_append, List.length_take, List.length_drop, hmem, hregs]
    omega
  have hc1b : s.memory_register + (N + 1) ≤ (s.memory.take s.memory_register
      ++ s.registers.take (N + 1) ++ s.memory.drop (s.memory_register + (N + 1))).length := by
    rw [hlen1]; omega
  refine ⟨{ s with
              memory := s.memory.take s.memory_register ++ s.registers.take (N + 1)
                ++ s.memory.drop (s.memory_register + (N + 1)),
              program_counter := wrap 65536 (s.program_counter + 2) },
          { s with
              memory := s.memory.take s.memory_register ++ s.registers.take (N + 1)
                ++ s.memory.drop (s.memory_register + (N + 1)),
              registers := ((s.memory.take s.memory_register ++ s.registers.take (N + 1)
                ++ s.memory.drop (s.memory_register + (N + 1))).drop
                  s.memory_register).take (N + 1) ++ s.registers.drop (N + 1),
              program_counter := wrap 65536 (wrap 65536 (s.program_counter + 2) + 2) },
          ?_, ?_, ?_, rfl, rfl⟩
  · simp only [Interpreter.execute_instruction]
    rw [if_pos hc1, if_pos hc2]
  · simp only [Interpreter.execute_instruction]
    rw [if_pos hc1b, if_pos hc2]
  · have htaketake : ((s.memory.take s.memory_register ++ s.registers.take (N + 1)
        ++ s.memory.drop (s.memory_register + (N + 1))).drop s.memory_register).take (N + 1)
        = s.registers.take (N + 1) := by
      rw [List.append_assoc]
      rw [List.drop_left' (show (s.memory.take s.memory_register).length = s.memory_register
        from by simp [List.length_take]; omega)]
      rw [List.take_left' (show (s.registers.take (N + 1)).length = N + 1
        from by simp [List.length_take]; omega)]
    show ((s.memory.take s.memory_register ++ s.registers.take (N + 1)
        ++ s.memory.drop (s.memory_register + (N + 1))).drop
          s.memory_register).take (N + 1) ++ s.registers.drop (N + 1) = s.registers
    rw [htaketake, List.take_append_drop]

/-- Witness for C7: store and reload registers 0..=3 at index 0 from the base state. -/
theorem c7_bulk_roundtrip_witness :
    ∃ s1 s2,
      baseInterp.execute_instruction (Instruction.LDIR 3) baseInput 0 =
        some (s1, ExecutionStatus.Ok) ∧
      s1.execute_instruction (Instruction.LDRI 3) baseInput 0 =
        some (s2, ExecutionStatus.Ok) ∧
      s2.registers = baseInterp.registers ∧
      s1.memory_register = baseInterp.memory_register ∧
      s2.memory_register = baseInterp.memory_register :=
  c7_bulk_roundtrip baseInterp baseInput 0 3
    (by simp only [baseInterp, List.length_replicate])
    (by simp only [baseInterp, List.length_replicate])
    (by decide) (by decide)

/-- Claim C8: a tick that fetches and decodes a wait-for-key instruction leaves
the program counter exactly at its pre-tick value when no key is in the
"pressed" state (the +2 pre-increment is rolled back), and when some key is in
the "pressed" state it stores that key's index in the destination register and
advances the program counter by 2. -/
theorem c8_wait_for_key (s : Interpreter) (inp : Input) (rnd : Nat) (r hi lo : Nat)
    (hkeys : inp.chip8_keys.length = 16)
    (hregs : s.registers.length = 16) (hpc : s.program_counter < 65536)
    (hhi : s.memory[s.program_counter]? = some hi)
    (hlo : s.memory[s.program_counter + 1]? = some lo)
    (hdec : Interpreter.decode_opcode ((hi <<< 8) ||| lo) = Instruction.LDRK r)
    (hr : r < 16) :
    (inp.any_key_pressed = none →
      ∃ s2, s.execute_next_instruction inp rnd = some (s2, TickResult.ok ExecutionStatus.Ok) ∧
        s2.program_counter = s.program_counter)
    ∧ (∀ k, inp.any_key_pressed = some k →
      ∃ s2, s.execute_next_instruction inp rnd = some (s2, TickResult.ok ExecutionStatus.Ok) ∧
        s2.registers = s.registers.set r k ∧
        s2.program_counter = wrap 65536 (s.program_counter + 2)) := by
  constructor
  · intro hnone
    simp only [Interpreter.execute_next_instruction, tickFetchExec, timerStep]
    rw [hhi]
    simp only [Option.bind_eq_bind, Option.some_bind]
    rw [hlo]
    simp only [Option.some_bind]
    rw [hdec]
    simp only [Interpreter.execute_instruction]
    rw [hnone]
    refine ⟨_, rfl, ?_⟩
    show wsub 65536 (wrap 65536 (s.program_counter + 2)) 2 = s.program_counter
    unfold wrap wsub
    omega
  · intro k hk
    have hk16 : k < 16 := by
      have := findIdx?_bound (fun ks => ks == KeyState.KeyPressed) inp.chip8_keys 0 k hk
      omega
    simp only [Interpreter.execute_next_instruction, tickFetchExec, timerStep]
    rw [hhi]
    simp only [Option.bind_eq_bind, Option.some_bind]
    rw [hlo]
    simp only [Option.some_bind]
    rw [hdec]
    simp only [Interpreter.execute_instruction]
    rw [hk]
    simp only [keyFrom, show k % 256 = k from by omega, if_pos hk16]
    simp only [Option.bind_eq_bind, Option.some_bind]
    rw [writeArr_eq_of_lt _ _ _ (by omega)]
    simp only [Option.some_bind]
    exact ⟨_, rfl, rfl, rfl⟩

/-- Witness for C8: the LDRK tick from `c8state`, once with no key pressed and
once with key 5 pressed. -/
theorem c8_wait_for_key_witness :
    ((baseInput.any_key_pressed = none →
      ∃ s2, c8state.execute_next_instruction baseInput 0 =
          some (s2, TickResult.ok ExecutionStatus.Ok) ∧
        s2.program_counter = c8state.program_counter)
    ∧ (∀ k, baseInput.any_key_pressed = some k →
      ∃ s2, c8state.execute_next_instruction baseInput 0 =
          some (s2, TickResult.ok ExecutionStatus.Ok) ∧
        s2.registers = c8state.registers.set 0 k ∧
        s2.program_counter = wrap 65536 (c8state.program_counter + 2)))
    ∧ ((pressedInput.any_key_pressed = none →
      ∃ s2, c8state.execute_next_instruction pressedInput 0 =
          some (s2, TickResult.ok ExecutionStatus.Ok) ∧
        s2.program_counter = c8state.program_counter)
    ∧ (∀ k, pressedInput.any_key_pressed = some k →
      ∃ s2, c8state.execute_next_instruction pressedInput 0 =
          some (s2, TickResult.ok ExecutionStatus.Ok) ∧
        s2.registers = c8state.registers.set 0 k ∧
        s2.program_counter = wrap 65536 (c8state.program_counter + 2))) :=
  ⟨c8_wait_for_key c8state baseInput 0 0 0xF0 0x0A rfl
      (by simp only [c8state, baseInterp, List.length_set, List.length_replicate])
      (by decide)
      (by show (((List.replicate 4095 (0 : Nat)).set 512 0xF0).set 513 0x0A)[512]? = some 0xF0
          simp only [List.getElem?_set, List.getElem?_replicate, List.length_set,
            List.length_replicate]
          norm_num)
      (by show (((List.replicate 4095 (0 : Nat)).set 512 0xF0).set 513 0x0A)[513]? = some 0x0A
          simp only [List.getElem?_set, List.getElem?_replicate, List.length_set,
            List.length_replicate]
          norm_num)
      rfl (by decide),
   c8_wait_for_key c8state pressedInput 0 0 0xF0 0x0A
      (by simp only [pressedInput, List.length_set, List.length_replicate])
      (by simp only [c8state, baseInterp, List.length_set, List.length_replicate])
      (by decide)
      (by show (((List.replicate 4095 (0 : Nat)).set 512 0xF0).set 513 0x0A)[512]? = some 0xF0
          simp only [List.getElem?_set, List.getElem?_replicate, List.length_set,
            List.length_replicate]
          norm_num)
      (by show (((List.replicate 4095 (0 : Nat)).set 512 0xF0).set 513 0x0A)[513]? = some 0x0A
          simp only [List.getElem?_set, List.getElem?_replicate, List.length_set,
            List.length_replicate]
          norm_num)
      rfl (by decide)⟩

/-- Claim C10 (corrected): the call instruction is the only instruction that
writes the stack array, and because it increments the stack pointer before
storing, a call executed with stack pointer at most 13 writes only slot
sp + 1 in 1..=14 and leaves slot 0 unchanged; a call executed with stack
pointer 14 fails on the out-of-bounds store (effective call depth 14 for a
15-entry stack); a return executed with stack pointer 0 loads stack slot 0
into the program counter and silently wraps the stack pointer to 2^64 - 1
rather than failing. -/
theorem c10_amended (s : Interpreter) (inp : Input) (rnd : Nat) (a : Nat)
    (hstack : s.stack.length = 15) :
    (∀ instr s1 st, (∀ a2, instr ≠ Instruction.CALL a2) →
      s.execute_instruction instr inp rnd = some (s1, st) → s1.stack = s.stack)
    ∧ (s.stack_pointer ≤ 13 →
      ∃ s1, s.execute_instruction (Instruction.CALL a) inp rnd = some (s1, ExecutionStatus.Ok) ∧
        s1.stack_pointer = s.stack_pointer + 1 ∧
        s1.stack = s.stack.set (s.stack_pointer + 1) (wrap 65536 (s.program_counter + 2)) ∧
        s1.stack[0]? = s.stack[0]?)
    ∧ (s.stack_pointer = 14 → s.execute_instruction (Instruction.CALL a) inp rnd = none)
    ∧ (s.stack_pointer = 0 →
      ∃ s1, s.execute_instruction Instruction.RET inp rnd = some (s1, ExecutionStatus.Ok) ∧
        s.stack[0]? = some s1.program_counter ∧
        s1.stack_pointer = 2 ^ 64 - 1) := by
  refine ⟨?_, ?_, ?_, ?_⟩
  · intro instr s1 st h1 h2
    exact exec_stack_unchanged s inp rnd instr s1 st h1 h2
  · intro hsp
    have hsp1 : wrap USIZE (s.stack_pointer + 1) = s.stack_pointer + 1 := by
      unfold wrap USIZE; omega
    simp only [Interpreter.execute_instruction]
    rw [hsp1, writeArr_eq_of_lt _ _ _ (by omega)]
    simp only [Option.bind_eq_bind, Option.some_bind]
    refine ⟨_, rfl, rfl, rfl, ?_⟩
    exact List.getElem?_set_ne (by omega)
  · intro h14
    simp only [Interpreter.execute_instruction]
    rw [h14]
    simp [writeArr, wrap, USIZE, hstack]
  · intro h0
    have hv : ∃ v, s.stack[0]? = some v := by
      have : (0 : Nat) < s.stack.length := by omega
      exact ⟨s.stack[0], List.getElem?_eq_getElem this⟩
    obtain ⟨v, hv⟩ := hv
    simp only [Interpreter.execute_instruction]
    rw [h0, hv]
    simp only [Option.bind_eq_bind, Option.some_bind]
    refine ⟨_, rfl, rfl, ?_⟩
    show wsub USIZE 0 1 = 2 ^ 64 - 1
    unfold wsub USIZE
    norm_num

/-- Witness for C10 at the base state (stack pointer 0, zeroed 15-entry stack). -/
theorem c10_amended_witness :
    (∀ instr s1 st, (∀ a2, instr ≠ Instruction.CALL a2) →
      baseInterp.execute_instruction instr baseInput 0 = some (s1, st) →
        s1.stack = baseInterp.stack)
    ∧ (baseInterp.stack_pointer ≤ 13 →
      ∃ s1, baseInterp.execute_instruction (Instruction.CALL 0x300) baseInput 0 =
          some (s1, ExecutionStatus.Ok) ∧
        s1.stack_pointer = baseInterp.stack_pointer + 1 ∧
        s1.stack = baseInterp.stack.set (baseInterp.stack_pointer + 1)
          (wrap 65536 (baseInterp.program_counter + 2)) ∧
        s1.stack[0]? = baseInterp.stack[0]?)
    ∧ (baseInterp.stack_pointer = 14 →
        baseInterp.execute_instruction (Instruction.CALL 0x300) baseInput 0 = none)
    ∧ (baseInterp.stack_pointer = 0 →
      ∃ s1, baseInterp.execute_instruction Instruction.RET baseInput 0 =
          some (s1, ExecutionStatus.Ok) ∧
        baseInterp.stack[0]? = some s1.program_counter ∧
        s1.stack_pointer = 2 ^ 64 - 1) :=
  c10_amended baseInterp baseInput 0 0x300 rfl
